import Mathlib

/-!
Verification of the Project Chimera liquidation bot core against its
natural-language specification.

The definitions below are a shallow embedding of the Python sources under
`src/chimera/bot/src/`: pure functions mirror the corresponding Python
methods, stateful methods become explicit state-passing functions, Python
ints become `Int`, `Decimal` values become `ℚ` (exact rational arithmetic,
matching the high-precision decimal arithmetic of the source), Python
floor division becomes `Int.fdiv`, and fallible paths return `Option` or
explicit outcome flags.  Dictionaries cached in Redis are modelled as
association lists from `(protocol, user)` keys to raw position records.
-/

namespace Chimera

/-- `SystemState` enum from `types.py`. -/
inductive SystemState where
  | normal
  | throttled
  | halted
deriving DecidableEq, Repr

/-- Raw (unvalidated) position record as stored in the cache: the JSON
dictionary that `StateEngine` serializes into Redis.  Fields follow
`types.Position` of `types.py`. -/
structure RawPosition where
  protocol : String
  user : String
  collateral_asset : String
  collateral_amount : Int
  debt_asset : String
  debt_amount : Int
  liquidation_threshold : ℚ
  last_update_block : Int
  blocks_unhealthy : Int
deriving DecidableEq, Repr

/-- Validated `Position` (pydantic model of `types.py`): constructing one
succeeds only when the validators `validate_address` and
`validate_positive` accept the raw data. -/
structure Position where
  protocol : String
  user : String
  collateral_asset : String
  collateral_amount : Int
  debt_asset : String
  debt_amount : Int
  liquidation_threshold : ℚ
  last_update_block : Int
  blocks_unhealthy : Int
deriving DecidableEq, Repr

/-- `Position.validate_address` in `types.py`: the address must start with
`0x` and have length 42 (stated over the character list of the string). -/
def validAddress (s : String) : Bool :=
  s.data.take 2 == ['0', 'x'] && s.data.length == 42

/-- Conjunction of the `types.Position` validators: addresses well-formed
and both amounts strictly positive. -/
def validRaw (r : RawPosition) : Bool :=
  validAddress r.user && validAddress r.collateral_asset &&
    validAddress r.debt_asset && decide (0 < r.collateral_amount) &&
    decide (0 < r.debt_amount)

/-- Pydantic construction of a `Position` from raw cached data: returns
`none` exactly when one of the validators of `types.Position` raises
(ill-formed address, or non-positive `collateral_amount`/`debt_amount`). -/
def mkPosition (r : RawPosition) : Option Position :=
  if validRaw r then
    some ⟨r.protocol, r.user, r.collateral_asset, r.collateral_amount,
      r.debt_asset, r.debt_amount, r.liquidation_threshold,
      r.last_update_block, r.blocks_unhealthy⟩
  else
    none

/-- `Position.to_dict` followed by JSON round-trip: the raw record a
validated position serializes back to. -/
def Position.toRaw (p : Position) : RawPosition :=
  ⟨p.protocol, p.user, p.collateral_asset, p.collateral_amount,
    p.debt_asset, p.debt_amount, p.liquidation_threshold,
    p.last_update_block, p.blocks_unhealthy⟩

/-- The Redis-backed position cache, keyed by `position:{protocol}:{user}`,
modelled as an association list on `(protocol, user)`. -/
def Cache := List ((String × String) × RawPosition)

/-- `redis.get` on a position key. -/
def Cache.lookup (c : Cache) (key : String × String) : Option RawPosition :=
  match c with
  | [] => none
  | (k, v) :: rest => if k = key then some v else Cache.lookup rest key

/-- `redis.set` on a position key (overwrite-or-insert). -/
def Cache.insert (c : Cache) (key : String × String) (v : RawPosition) : Cache :=
  match c with
  | [] => [(key, v)]
  | (k, w) :: rest =>
    if k = key then (k, v) :: rest else (k, w) :: Cache.insert rest key v

/-- `redis.delete` on a position key. -/
def Cache.remove (c : Cache) (key : String × String) : Cache :=
  match c with
  | [] => []
  | (k, w) :: rest =>
    if k = key then Cache.remove rest key else (k, w) :: Cache.remove rest key

/-!
## State Engine: sequencer guard (`state_engine.py`)

`StateEngine` block-tracking state and the two methods the sequencer-guard
claim is about: `_check_sequencer_health` and `_process_new_block`.
-/

/-- The block-tracking fields of `StateEngine.__init__`. -/
structure EngineState where
  current_block : Int
  previous_block : Int
  last_block_timestamp : Int
  system_state : SystemState
deriving DecidableEq, Repr

/-- `StateEngine.set_system_state`. -/
def setSystemState (s : EngineState) (st : SystemState) : EngineState :=
  { s with system_state := st }

/-- `StateEngine._check_sequencer_health(block_number, block_timestamp)`:
the sequencer guard.  Reads `previous_block` and `last_block_timestamp`
from the engine state and halts on large gaps, deep reorgs, backward
timestamps, and timestamp jumps above 20 seconds; each halting branch
returns immediately, mirroring the early `return`s of the Python code. -/
def checkSequencerHealth (blockNumber blockTimestamp : Int)
    (s : EngineState) : EngineState :=
  if 0 < s.previous_block ∧ blockNumber ≠ s.previous_block + 1 ∧
      3 < blockNumber - s.previous_block then
    setSystemState s .halted
  else if 0 < s.previous_block ∧ blockNumber ≠ s.previous_block + 1 ∧
      blockNumber - s.previous_block < 1 ∧
      3 < s.previous_block - blockNumber + 1 then
    setSystemState s .halted
  else if 0 < s.last_block_timestamp ∧
      20 < blockTimestamp - s.last_block_timestamp then
    setSystemState s .halted
  else if 0 < s.last_block_timestamp ∧
      blockTimestamp - s.last_block_timestamp < 0 then
    setSystemState s .halted
  else
    s

/-- `StateEngine._process_new_block` restricted to its state-transition
content: it first overwrites `previous_block`, `current_block` and
`last_block_timestamp` with the new header's data, and only then runs
`_check_sequencer_health` (the event-processing and reconciliation calls
in the method body are commented out in the source). -/
def processNewBlock (blockNumber blockTimestamp : Int)
    (s : EngineState) : EngineState :=
  let s1 : EngineState :=
    { s with
      previous_block := s.current_block
      current_block := blockNumber
      last_block_timestamp := blockTimestamp }
  checkSequencerHealth blockNumber blockTimestamp s1

/-!
## State Engine: reconciliation (`state_engine.py`, `types.py`)
-/

/-- The basis-point divergence computed by `StateEngine._reconcile_state`
(and identically by `StateDivergence.__post_init__` in `types.py`):
`abs((cached - canonical) * 10000 // canonical)` with Python floor
division, modelled by `Int.fdiv`.  Only called with `canonical > 0`. -/
def divergenceBps (cached canonical : Int) : Int :=
  (((cached - canonical) * 10000).fdiv canonical).natAbs

/-- A `StateDivergence` record as emitted during reconciliation
(the fields relevant to the claims). -/
structure Divergence where
  field : String
  cached_value : Int
  canonical_value : Int
  divergence_bps : Int
deriving DecidableEq, Repr

/-- Result of reconciling one cached position. -/
structure ReconcileResult where
  divergences : List Divergence
  halted : Bool
  newPosition : RawPosition
deriving DecidableEq, Repr

/-- The per-position body of `StateEngine._reconcile_state`: given the
cached record and the canonical `collateral_amount`/`debt_amount` fetched
from the archive node, compute both divergences (a record is appended
whenever the divergence is nonzero, and the system is halted whenever a
divergence exceeds 10 bps), then unconditionally overwrite the cached
amounts with the canonical values and bump `last_update_block`. -/
def reconcilePosition (cached : RawPosition)
    (canonicalCollateral canonicalDebt blockNumber : Int) : ReconcileResult :=
  let colBps := divergenceBps cached.collateral_amount canonicalCollateral
  let colDivs : List Divergence :=
    if 0 < canonicalCollateral ∧ 0 < colBps then
      [⟨"collateral_amount", cached.collateral_amount, canonicalCollateral,
        colBps⟩]
    else []
  let colHalt : Bool :=
    decide (0 < canonicalCollateral ∧ 0 < colBps ∧ 10 < colBps)
  let debtBps := divergenceBps cached.debt_amount canonicalDebt
  let debtDivs : List Divergence :=
    if 0 < canonicalDebt ∧ 0 < debtBps then
      [⟨"debt_amount", cached.debt_amount, canonicalDebt, debtBps⟩]
    else []
  let debtHalt : Bool :=
    decide (0 < canonicalDebt ∧ 0 < debtBps ∧ 10 < debtBps)
  { divergences := colDivs ++ debtDivs
    halted := colHalt || debtHalt
    newPosition :=
      { cached with
        collateral_amount := canonicalCollateral
        debt_amount := canonicalDebt
        last_update_block := blockNumber } }

/-!
## State Engine: position cache management (`state_engine.py`)
-/

/-- `StateEngine.get_position`: fetch the raw record from the cache and
re-validate it through the pydantic `Position` constructor; any parse or
validation failure is caught and turned into `None`. -/
def getPosition (c : Cache) (protocol user : String) : Option Position :=
  match c.lookup (protocol, user) with
  | none => none
  | some raw => mkPosition raw

/-- `StateEngine.update_position_health`: read the position through
`get_position`; on success reset `blocks_unhealthy` to 0 (healthy) or
increment it by 1 (unhealthy), stamp `last_update_block`, and write the
record back.  Returns the success flag together with the new cache. -/
def updatePositionHealth (c : Cache) (protocol user : String)
    (isHealthy : Bool) (blockNumber : Int) : Bool × Cache :=
  match getPosition c protocol user with
  | none => (false, c)
  | some p =>
    let p2 : Position :=
      { p with
        blocks_unhealthy := if isHealthy then 0 else p.blocks_unhealthy + 1
        last_update_block := blockNumber }
    (true, c.insert (protocol, user) p2.toRaw)

/-- The placeholder record written by
`StateEngine._fetch_and_cache_position` when a debt-update event arrives
for a user with no cached position (zero amounts, zero addresses). -/
def placeholderPosition (protocol user : String)
    (liquidationThreshold : ℚ) (blockNumber : Int) : RawPosition :=
  { protocol := protocol
    user := user
    collateral_asset := "0x0000000000000000000000000000000000000000"
    collateral_amount := 0
    debt_asset := "0x0000000000000000000000000000000000000000"
    debt_amount := 0
    liquidation_threshold := liquidationThreshold
    last_update_block := blockNumber
    blocks_unhealthy := 0 }

/-- `StateEngine._update_position_debt` (the cache effect of Borrow and
Repay events): when the position is cached, add the amount to the debt on
a borrow (`is_increase=True`) or subtract it clamped at zero on a repay
(`is_increase=False`), stamp the block, and write the record back; when
it is not cached, `_fetch_and_cache_position` stores a placeholder
(`protocolThreshold` is the configured liquidation threshold; `none`
means the protocol is unknown to the config, in which case nothing is
written). -/
def updatePositionDebt (c : Cache) (protocol user : String)
    (amount blockNumber : Int) (isIncrease : Bool)
    (protocolThreshold : Option ℚ) : Cache :=
  match c.lookup (protocol, user) with
  | some raw =>
    let newDebt : Int :=
      if isIncrease then raw.debt_amount + amount
      else max 0 (raw.debt_amount - amount)
    c.insert (protocol, user)
      { raw with debt_amount := newDebt, last_update_block := blockNumber }
  | none =>
    match protocolThreshold with
    | some t =>
      c.insert (protocol, user) (placeholderPosition protocol user t blockNumber)
    | none => c

/-- `StateEngine._handle_liquidation_event` (cache effect): when the
emitting contract is a configured protocol, delete the target position
key; otherwise do nothing. -/
def handleLiquidationEvent (c : Cache) (protocolKnown : Bool)
    (protocol user : String) : Cache :=
  if protocolKnown then c.remove (protocol, user) else c

/-!
## Opportunity Detector (`opportunity_detector.py`)
-/

/-- Previous-price memory of the detector (`self.previous_prices`). -/
def PrevPrices := List (String × ℚ)

/-- Dictionary lookup in the previous-price memory. -/
def PrevPrices.lookup (m : PrevPrices) (k : String) : Option ℚ :=
  match m with
  | [] => none
  | (k2, v) :: rest => if k2 = k then some v else PrevPrices.lookup rest k

/-- Dictionary assignment in the previous-price memory. -/
def PrevPrices.insert (m : PrevPrices) (k : String) (v : ℚ) : PrevPrices :=
  match m with
  | [] => [(k, v)]
  | (k2, w) :: rest =>
    if k2 = k then (k2, v) :: rest else (k2, w) :: PrevPrices.insert rest k v

/-- The configuration and oracle environment read by
`OpportunityDetector`: primary Chainlink prices per asset, the Pyth
configuration map, the sanity thresholds, the confirmation-block count,
profit-estimation constants, and the per-protocol liquidation bonus
(`none` when the protocol is absent from the config). -/
structure DetectorEnv where
  chainlinkPrice : String → Option ℚ
  pythConfigured : String → Bool
  maxDivergencePercent : ℚ
  maxMovementPercent : ℚ
  confirmationBlocks : Int
  minProfitUsd : ℚ
  flashLoanPremiumPercent : ℚ
  maxSlippagePercent : ℚ
  protocolBonus : String → Option ℚ
  currentBlock : Int

/-- `OpportunityDetector.get_pyth_price`: the source is a placeholder that
always returns `None` (Pyth is not yet implemented). -/
def getPythPrice (_asset : String) : Option ℚ := none

/-- `OpportunityDetector.calculate_health_factor`: returns
`(health_factor, collateral_price, debt_price)` or `none` when either
Chainlink price is unavailable.  Amounts are converted assuming 18
decimals; a position whose debt value is zero gets the sentinel health
factor 999999. -/
def calculateHealthFactor (env : DetectorEnv) (p : Position) :
    Option (ℚ × ℚ × ℚ) :=
  match env.chainlinkPrice p.collateral_asset,
      env.chainlinkPrice p.debt_asset with
  | some colPrice, some debtPrice =>
    let colDec : ℚ := (p.collateral_amount : ℚ) / (10 ^ 18 : ℚ)
    let debtDec : ℚ := (p.debt_amount : ℚ) / (10 ^ 18 : ℚ)
    let collateralValue := colDec * colPrice * p.liquidation_threshold
    let debtValue := debtDec * debtPrice
    if debtValue = 0 then some (999999, colPrice, debtPrice)
    else some (collateralValue / debtValue, colPrice, debtPrice)
  | _, _ => none

/-- One secondary-oracle divergence check of
`OpportunityDetector.verify_oracle_sanity` (check 1): performed only when
a Pyth oracle is configured for the asset and returns a price, and fails
when the relative divergence exceeds `max_divergence_percent`.  A zero
primary price makes the Python `Decimal` division raise, which the
enclosing handler converts to a failed check. -/
def divergenceCheckFails (env : DetectorEnv) (asset : String)
    (primary : ℚ) : Bool :=
  if env.pythConfigured asset then
    match getPythPrice asset with
    | some secondary =>
      if primary = 0 then true
      else decide (|primary - secondary| / primary * 100 >
        env.maxDivergencePercent)
    | none => false
  else false

/-- One previous-price movement check of
`OpportunityDetector.verify_oracle_sanity` (check 2): performed only when
the asset has a remembered previous price, and fails when the move
exceeds `max_price_movement_percent`.  A zero previous price makes the
Python `Decimal` division raise, which the enclosing handler converts to
a failed check. -/
def movementCheckFails (env : DetectorEnv) (prev : PrevPrices)
    (asset : String) (current : ℚ) : Bool :=
  match prev.lookup asset with
  | some previous =>
    if previous = 0 then true
    else decide (|current - previous| / previous * 100 >
      env.maxMovementPercent)
  | none => false

/-- `OpportunityDetector.verify_oracle_sanity`: runs the two divergence
checks and the two movement checks in source order, returning `false` on
the first failure (leaving the previous-price memory untouched), and on
full success records both current prices in the memory and returns
`true`. -/
def verifyOracleSanity (env : DetectorEnv) (prev : PrevPrices)
    (collateralAsset : String) (collateralPrice : ℚ)
    (debtAsset : String) (debtPrice : ℚ) : Bool × PrevPrices :=
  if divergenceCheckFails env collateralAsset collateralPrice then
    (false, prev)
  else if divergenceCheckFails env debtAsset debtPrice then
    (false, prev)
  else if movementCheckFails env prev collateralAsset collateralPrice then
    (false, prev)
  else if movementCheckFails env prev debtAsset debtPrice then
    (false, prev)
  else
    (true, (prev.insert collateralAsset collateralPrice).insert
      debtAsset debtPrice)

/-- `OpportunityDetector.check_protocol_state`: the pause / rate-limit /
bounds checks are placeholders in the source; the only live check is that
the protocol exists in the configuration. -/
def checkProtocolState (env : DetectorEnv) (p : Position) : Bool :=
  (env.protocolBonus p.protocol).isSome

/-- `OpportunityDetector.estimate_profit`: rough
`(gross, net)` profit estimate.  Gross is liquidation bonus plus an
assumed 3% arbitrage on the collateral value; costs are a fixed $15 gas
assumption, a 20% of gross bribe, the flash-loan premium on the debt
value and the slippage allowance on the collateral value.  An unknown
protocol yields `(0, 0)`. -/
def estimateProfit (env : DetectorEnv) (p : Position)
    (collateralPrice debtPrice : ℚ) : ℚ × ℚ :=
  match env.protocolBonus p.protocol with
  | none => (0, 0)
  | some bonus =>
    let colDec : ℚ := (p.collateral_amount : ℚ) / (10 ^ 18 : ℚ)
    let debtDec : ℚ := (p.debt_amount : ℚ) / (10 ^ 18 : ℚ)
    let collateralValueUsd := colDec * collateralPrice
    let debtValueUsd := debtDec * debtPrice
    let liquidationBonusUsd := collateralValueUsd * bonus
    let arbitrageProfitUsd := collateralValueUsd * (3 / 100 : ℚ)
    let grossProfitUsd := liquidationBonusUsd + arbitrageProfitUsd
    let gasCostUsd : ℚ := 15
    let bribeCostUsd := grossProfitUsd * (20 / 100 : ℚ)
    let flashLoanCostUsd := debtValueUsd * (env.flashLoanPremiumPercent / 100)
    let slippageCostUsd := collateralValueUsd * (env.maxSlippagePercent / 100)
    let totalCostUsd := gasCostUsd + bribeCostUsd + flashLoanCostUsd +
      slippageCostUsd
    (grossProfitUsd, grossProfitUsd - totalCostUsd)

/-- An emitted `Opportunity` (`types.py`), restricted to the fields the
claims mention. -/
structure Opportunity where
  position : Position
  health_factor : ℚ
  collateral_price_usd : ℚ
  debt_price_usd : ℚ
  liquidation_bonus : ℚ
  estimated_gross_profit_usd : ℚ
  estimated_net_profit_usd : ℚ
  detected_at_block : Int
deriving DecidableEq, Repr

/-- The decision taken by `OpportunityDetector.check_position`: each
`return None` site of the source gets its own tag, and the accepting path
carries the emitted `Opportunity`. -/
inductive CheckOutcome where
  | noPrices
  | healthy
  | sanityFailed
  | notInCache
  | notConfirmed
  | protocolBlocked
  | unprofitable
  | opportunity (o : Opportunity)
deriving DecidableEq, Repr

/-- Result of one `check_position` call: the decision plus the position
cache and previous-price memory after the call. -/
structure CheckResult where
  outcome : CheckOutcome
  cache : Cache
  prev : PrevPrices

/-- `OpportunityDetector.check_position`: the ordered five-stage filter of
the source.  Stage 1 computes the health factor (dropping with untouched
state when a price is missing, resetting `blocks_unhealthy` when the
position is healthy); stage 2 runs the oracle sanity checks (dropping
with untouched state on failure); stage 3 increments `blocks_unhealthy`
through `update_position_health(healthy=False)`, re-reads the position,
and drops it while `blocks_unhealthy` is below `confirmation_blocks`;
stage 4 checks protocol state; stage 5 drops estimates below
`min_profit_usd` and otherwise emits the `Opportunity`. -/
def checkPosition (env : DetectorEnv) (c : Cache) (prev : PrevPrices)
    (p : Position) : CheckResult :=
  match calculateHealthFactor env p with
  | none => ⟨.noPrices, c, prev⟩
  | some (healthFactor, collateralPrice, debtPrice) =>
    if 1 ≤ healthFactor then
      let r := updatePositionHealth c p.protocol p.user true env.currentBlock
      ⟨.healthy, r.2, prev⟩
    else
      match verifyOracleSanity env prev p.collateral_asset collateralPrice
          p.debt_asset debtPrice with
      | (false, _) => ⟨.sanityFailed, c, prev⟩
      | (true, prev2) =>
        let r := updatePositionHealth c p.protocol p.user false
          env.currentBlock
        let c2 := r.2
        match getPosition c2 p.protocol p.user with
        | none => ⟨.notInCache, c2, prev2⟩
        | some updated =>
          if updated.blocks_unhealthy < env.confirmationBlocks then
            ⟨.notConfirmed, c2, prev2⟩
          else if ¬ checkProtocolState env p then
            ⟨.protocolBlocked, c2, prev2⟩
          else
            let est := estimateProfit env p collateralPrice debtPrice
            if est.2 < env.minProfitUsd then
              ⟨.unprofitable, c2, prev2⟩
            else
              ⟨.opportunity
                { position := updated
                  health_factor := healthFactor
                  collateral_price_usd := collateralPrice
                  debt_price_usd := debtPrice
                  liquidation_bonus :=
                    (env.protocolBonus p.protocol).getD 0
                  estimated_gross_profit_usd := est.1
                  estimated_net_profit_usd := est.2
                  detected_at_block := env.currentBlock }, c2, prev2⟩

/-!
## Execution Planner (`execution_planner.py`)
-/

/-- The execution-related configuration read by
`ExecutionPlanner._calculate_costs` (`config.py` defaults in comments). -/
structure PlannerConfig where
  maxBribePercent : ℚ
  flashLoanPremiumPercent : ℚ
  maxSlippagePercent : ℚ
deriving DecidableEq, Repr

/-- The inputs of `_calculate_costs` named by the determinism claim: the
transaction (its priority fee and calldata), the gas estimate, the
simulated profit, the ETH/USD price and the opportunity's price and
amount snapshot. -/
structure CostInputs where
  priorityFeeWei : Int
  calldataLen : Nat
  gasEstimate : Int
  simulatedProfitWei : Int
  ethUsdPrice : ℚ
  debtPriceUsd : ℚ
  debtAmount : Int
  collateralAmount : Int
  collateralPriceUsd : ℚ
deriving DecidableEq, Repr

/-- Ambient state `_calculate_costs` reads beyond its arguments: the
latest block's base fee (`w3.eth.get_block('latest')`), the L1 gas
oracle's `getL1Fee` answer (`none` models the call failing, triggering
the calldata-size fallback), the planner's mutable `bribe_percent`, and
for stating the determinism claim a wall clock and a randomness seed that
the computation provably never reads. -/
structure Ambient where
  baseFeeWei : Int
  l1FeeWei : Option Int
  bribePercent : ℚ
  clock : Int
  randomSeed : Int
deriving DecidableEq, Repr

/-- The cost-breakdown dictionary returned by `_calculate_costs`. -/
structure CostBreakdown where
  simulated_profit_usd : ℚ
  l2_gas_cost_usd : ℚ
  l1_data_cost_usd : ℚ
  bribe_usd : ℚ
  flash_loan_cost_usd : ℚ
  slippage_cost_usd : ℚ
  total_cost_usd : ℚ
  net_profit_usd : ℚ
deriving DecidableEq, Repr

/-- `ExecutionPlanner._calculate_l1_data_cost`: convert the oracle's
`getL1Fee` answer to USD; on oracle failure fall back to
`len(calldata) // 2` bytes at $0.001 per byte. -/
def calculateL1DataCost (l1FeeWei : Option Int) (calldataLen : Nat)
    (ethUsdPrice : ℚ) : ℚ :=
  match l1FeeWei with
  | some fee => (fee : ℚ) / (10 ^ 18 : ℚ) * ethUsdPrice
  | none => ((calldataLen / 2 : Nat) : ℚ) * (1 / 1000 : ℚ)

/-- `ExecutionPlanner._calculate_costs`: the full L2+L1 cost breakdown.
L2 cost is `gas_estimate * (base_fee + priority_fee)` converted to USD,
L1 cost comes from `_calculate_l1_data_cost`, the bribe is
`bribe_percent` of the simulated USD profit (`none` when it exceeds the
`max_bribe_percent` cap), the flash-loan premium applies to the debt
value and the slippage allowance to the collateral value; the net profit
is the simulated profit minus the total. -/
def calculateCosts (cfg : PlannerConfig) (amb : Ambient)
    (inp : CostInputs) : Option CostBreakdown :=
  let l2GasCostWei : Int := inp.gasEstimate * (amb.baseFeeWei + inp.priorityFeeWei)
  let l2GasCostUsd : ℚ := (l2GasCostWei : ℚ) / (10 ^ 18 : ℚ) * inp.ethUsdPrice
  let l1DataCostUsd := calculateL1DataCost amb.l1FeeWei inp.calldataLen
    inp.ethUsdPrice
  let totalGasCostUsd := l2GasCostUsd + l1DataCostUsd
  let simulatedProfitUsd : ℚ :=
    (inp.simulatedProfitWei : ℚ) / (10 ^ 18 : ℚ) * inp.debtPriceUsd
  let bribeUsd := simulatedProfitUsd * (amb.bribePercent / 100)
  let maxBribeUsd := simulatedProfitUsd * (cfg.maxBribePercent / 100)
  if maxBribeUsd < bribeUsd then none
  else
    let flashLoanAmountUsd : ℚ :=
      (inp.debtAmount : ℚ) / (10 ^ 18 : ℚ) * inp.debtPriceUsd
    let flashLoanCostUsd := flashLoanAmountUsd *
      (cfg.flashLoanPremiumPercent / 100)
    let collateralValueUsd : ℚ :=
      (inp.collateralAmount : ℚ) / (10 ^ 18 : ℚ) * inp.collateralPriceUsd
    let slippageCostUsd := collateralValueUsd * (cfg.maxSlippagePercent / 100)
    let totalCostUsd := totalGasCostUsd + bribeUsd + flashLoanCostUsd +
      slippageCostUsd
    some
      { simulated_profit_usd := simulatedProfitUsd
        l2_gas_cost_usd := l2GasCostUsd
        l1_data_cost_usd := l1DataCostUsd
        bribe_usd := bribeUsd
        flash_loan_cost_usd := flashLoanCostUsd
        slippage_cost_usd := slippageCostUsd
        total_cost_usd := totalCostUsd
        net_profit_usd := simulatedProfitUsd - totalCostUsd }

/-- The `Bundle` model (`types.py`), restricted to the simulation and
cost fields the claims mention. -/
structure Bundle where
  simulated_profit_wei : Int
  simulated_profit_usd : ℚ
  gas_estimate : Int
  l2_gas_cost_usd : ℚ
  l1_data_cost_usd : ℚ
  bribe_usd : ℚ
  flash_loan_cost_usd : ℚ
  slippage_cost_usd : ℚ
  total_cost_usd : ℚ
  net_profit_usd : ℚ
deriving DecidableEq, Repr

/-- Pydantic construction of a `Bundle`: the `validate_profitable`
validator of `types.py` rejects any bundle whose net profit is not
strictly positive (the raised `ValueError` is caught by the caller and
turned into `None`). -/
def mkBundle (profitWei gasEstimate : Int) (cb : CostBreakdown) :
    Option Bundle :=
  if cb.net_profit_usd ≤ 0 then none
  else
    some
      { simulated_profit_wei := profitWei
        simulated_profit_usd := cb.simulated_profit_usd
        gas_estimate := gasEstimate
        l2_gas_cost_usd := cb.l2_gas_cost_usd
        l1_data_cost_usd := cb.l1_data_cost_usd
        bribe_usd := cb.bribe_usd
        flash_loan_cost_usd := cb.flash_loan_cost_usd
        slippage_cost_usd := cb.slippage_cost_usd
        total_cost_usd := cb.total_cost_usd
        net_profit_usd := cb.net_profit_usd }

/-- `ExecutionPlanner.plan_execution` from simulation onwards: a failed
simulation drops the opportunity, then costs are computed, a net profit
below `min_profit_usd` is rejected, and otherwise the `Bundle` is
constructed (its validator still rejecting non-positive net profit).
`simulationResult` carries `(simulated_profit_wei, gas_estimate)`. -/
def planExecution (cfg : PlannerConfig) (amb : Ambient) (inp : CostInputs)
    (minProfitUsd : ℚ) (simulationResult : Option (Int × Int)) :
    Option Bundle :=
  match simulationResult with
  | none => none
  | some (profitWei, gasEstimate) =>
    let inp2 : CostInputs :=
      { inp with
        simulatedProfitWei := profitWei
        gasEstimate := gasEstimate }
    match calculateCosts cfg amb inp2 with
    | none => none
    | some cb =>
      if cb.net_profit_usd < minProfitUsd then none
      else mkBundle profitWei gasEstimate cb

/-- The bribe-ladder configuration of `ExecutionPlanner`
(`config.py` defaults: baseline 15, +5, −2, cap 40). -/
structure BribeConfig where
  baselineBribePercent : ℚ
  bribeIncreasePercent : ℚ
  bribeDecreasePercent : ℚ
  maxBribePercent : ℚ
deriving DecidableEq, Repr

/-- `ExecutionPlanner.update_bribe_model`: given the recent-submission
window (each entry the `included` flag of one `ExecutionRecord`) and the
current `bribe_percent`, return the new `bribe_percent`.  Windows shorter
than 100 leave it unchanged; an inclusion rate below 60% raises it by the
step capped at the maximum; a rate above 90% lowers it by the step
floored at the baseline; otherwise it is unchanged. -/
def updateBribeModel (cfg : BribeConfig) (window : List Bool)
    (bribePercent : ℚ) : ℚ :=
  if window.length < 100 then bribePercent
  else
    let includedCount := window.countP (fun b => b)
    let inclusionRate : ℚ := (includedCount : ℚ) / (window.length : ℚ)
    if inclusionRate < 60 / 100 then
      min (bribePercent + cfg.bribeIncreasePercent) cfg.maxBribePercent
    else if 90 / 100 < inclusionRate then
      max (bribePercent - cfg.bribeDecreasePercent) cfg.baselineBribePercent
    else bribePercent

/-!
## Safety Controller (`safety_controller.py`)
-/

/-- The limits of `SafetyLimits` in `config.py` read by
`validate_execution`. -/
structure SafetyLimits where
  minProfitUsd : ℚ
  maxSingleExecutionUsd : ℚ
  maxDailyVolumeUsd : ℚ
  maxConsecutiveFailures : Int
deriving DecidableEq, Repr

/-- The mutable counters of `SafetyController` read and written by
`validate_execution`: the daily volume, the next reset instant, and the
consecutive-failure counter.  Instants are UTC timestamps. -/
structure SafetyState where
  dailyVolumeUsd : ℚ
  dailyResetTime : Int
  consecutiveFailures : Int
deriving DecidableEq, Repr

/-- The reason attached to a `validate_execution` rejection, one per
rejecting branch of the source. -/
inductive RejectReason where
  | minProfit
  | maxSingleExecution
  | maxDailyVolume
  | consecutiveFailures
deriving DecidableEq, Repr

/-- `SafetyController._reset_daily_volume_if_needed`: when the current
time has reached the scheduled reset instant, zero the daily volume and
schedule the next midnight (`nextMidnight` is the value
`_get_next_midnight_utc` would return now). -/
def resetDailyVolumeIfNeeded (now nextMidnight : Int)
    (s : SafetyState) : SafetyState :=
  if s.dailyResetTime ≤ now then
    { s with dailyVolumeUsd := 0, dailyResetTime := nextMidnight }
  else s

/-- `SafetyController.validate_execution`: the four limit checks in
source order — minimum profit, single-execution cap, daily-volume cap
(preceded by the midnight reset), and the consecutive-failure cap.
Returns the verdict together with the state after the reset. -/
def validateExecution (limits : SafetyLimits) (now nextMidnight : Int)
    (s : SafetyState) (netProfitUsd : ℚ) :
    (Option RejectReason) × SafetyState :=
  if netProfitUsd < limits.minProfitUsd then (some .minProfit, s)
  else if limits.maxSingleExecutionUsd < netProfitUsd then
    (some .maxSingleExecution, s)
  else
    let s2 := resetDailyVolumeIfNeeded now nextMidnight s
    if limits.maxDailyVolumeUsd < s2.dailyVolumeUsd + netProfitUsd then
      (some .maxDailyVolume, s2)
    else if limits.maxConsecutiveFailures ≤ s2.consecutiveFailures then
      (some .consecutiveFailures, s2)
    else (none, s2)

/-!
## Helper lemmas about the cache and position validation
-/

theorem lookup_insert_self (c : Cache) (k : String × String)
    (v : RawPosition) : (c.insert k v).lookup k = some v := by
  induction c with
  | nil => simp [Cache.insert, Cache.lookup]
  | cons hd tl ih =>
    obtain ⟨k2, w⟩ := hd
    by_cases h : k2 = k
    · simp [Cache.insert, Cache.lookup, h]
    · simp [Cache.insert, Cache.lookup, h, ih]

theorem lookup_remove_self (c : Cache) (k : String × String) :
    (c.remove k).lookup k = none := by
  induction c with
  | nil => simp [Cache.remove, Cache.lookup]
  | cons hd tl ih =>
    obtain ⟨k2, w⟩ := hd
    by_cases h : k2 = k
    · simp [Cache.remove, Cache.lookup, h, ih]
    · simp [Cache.remove, Cache.lookup, h, ih]

theorem mkPosition_some_inv {r : RawPosition} {p : Position}
    (h : mkPosition r = some p) : validRaw r = true ∧ p.toRaw = r := by
  unfold mkPosition at h
  split at h
  · next hv =>
    refine ⟨hv, ?_⟩
    injection h with h3
    rw [← h3]
    cases r
    rfl
  · exact absurd h (by simp)

theorem mkPosition_toRaw_self {p : Position}
    (h : validRaw p.toRaw = true) : mkPosition p.toRaw = some p := by
  unfold mkPosition
  rw [if_pos h]
  cases p
  rfl

theorem validRaw_toRaw_health_update (p : Position) (x y : Int) :
    validRaw (Position.toRaw
      { p with blocks_unhealthy := x, last_update_block := y }) =
    validRaw p.toRaw := by
  cases p
  rfl

/-!
## Claim theorems
-/

/-- C1.  The claim says a block-processing step halts the system when the
new header's timestamp is earlier than the previous block's timestamp or
exceeds it by more than 20 seconds.  In the code this cannot happen:
`_process_new_block` overwrites `last_block_timestamp` with the new
header's timestamp before `_check_sequencer_health` runs, so the guard
always compares the new timestamp with itself.  Part 1: the resulting
system state of a block-processing step does not depend on the new
header's timestamp at all.  Part 2: at the concrete failing input
(previous block 1000 at timestamp 1000, new header block 1001 at
timestamp 500, i.e. time going backwards) the step leaves the system in
`NORMAL`.  Part 3: the guard itself, given the previous timestamp the
way the repository's own tests invoke it, does halt on that input — the
intent the calling order defeats. -/
theorem C1_sequencer_timestamp_guard_unreachable :
    (∀ (s : EngineState) (blockNumber t1 t2 : Int),
      (processNewBlock blockNumber t1 s).system_state =
        (processNewBlock blockNumber t2 s).system_state) ∧
    (processNewBlock 1001 500
      ⟨1000, 999, 1000, SystemState.normal⟩).system_state =
      SystemState.normal ∧
    (checkSequencerHealth 1001 500
      ⟨1000, 999, 1000, SystemState.normal⟩).system_state =
      SystemState.halted := by
  refine ⟨?_, by decide, by decide⟩
  intro s bn t1 t2
  simp only [processNewBlock, checkSequencerHealth, setSystemState,
    sub_self]
  split_ifs <;> first | rfl | (exfalso; omega)

/-- A well-formed sample address for concrete instantiations. -/
def sampleAddress : String := "0xaaaaaaaaaaaaaaaaaaaaaaaaaaaaaaaaaaaaaaaa"

/-- A sample cached position record for concrete instantiations. -/
def samplePosition : RawPosition :=
  ⟨"moonwell", sampleAddress, sampleAddress, 10 ^ 18, sampleAddress,
    10 ^ 18, 8 / 10, 1, 0⟩

/-- C2 counterexample.  Cached debt `10^18` against canonical debt
`1.02 * 10^18`: the code computes 197 bps (`abs` of a floored negative
quotient), which differs from the claim's formula
`|cached - canonical| * 10000 / canonical` (196 under integer floor
division, 10000/51 under exact division); moreover the step halts yet
the cached debt is still overwritten with the canonical value,
contradicting the claim's "only otherwise is the cached value
overwritten". -/
theorem C2_divergence_counterexample :
    (reconcilePosition samplePosition (10 ^ 18) (102 * 10 ^ 16)
      500).divergences =
      [⟨"debt_amount", 10 ^ 18, 102 * 10 ^ 16, 197⟩] ∧
    (197 : Nat) ≠
      ((10 ^ 18 - 102 * 10 ^ 16 : Int).natAbs * 10000) /
        (102 * 10 ^ 16 : Int).natAbs ∧
    (197 : ℚ) ≠ |(10 ^ 18 : ℚ) - 102 * 10 ^ 16| * 10000 / (102 * 10 ^ 16) ∧
    (reconcilePosition samplePosition (10 ^ 18) (102 * 10 ^ 16)
      500).halted = true ∧
    (reconcilePosition samplePosition (10 ^ 18) (102 * 10 ^ 16)
      500).newPosition.debt_amount = 102 * 10 ^ 16 := by
  refine ⟨by decide, by decide, ?_, by decide, by decide⟩
  rw [abs_of_neg (by norm_num)]
  norm_num

/-- Exact characterization of the basis-point value the code computes:
for a positive canonical value it is the floor of the true quotient when
the cached value is at least canonical, and the ceiling when the cached
value is below canonical (hence one more than the spec formula whenever
that division is inexact). -/
def divergenceFloorCeilBound (c k : Int) : Prop :=
  (k ≤ c → divergenceBps c k * k ≤ (c - k) * 10000 ∧
    (c - k) * 10000 < (divergenceBps c k + 1) * k) ∧
  (c < k → (divergenceBps c k - 1) * k < (k - c) * 10000 ∧
    (k - c) * 10000 ≤ divergenceBps c k * k)

/-- What one reconciliation step actually does: the cached amounts are
always overwritten with the canonical values; the system halts exactly
when a computed divergence exceeds 10 bps; and a `StateDivergence`
record is emitted for a field exactly when its computed divergence is
nonzero. -/
def reconcileSpec (cached : RawPosition) (kc kd bn : Int) : Prop :=
  (reconcilePosition cached kc kd bn).newPosition.collateral_amount = kc ∧
  (reconcilePosition cached kc kd bn).newPosition.debt_amount = kd ∧
  (reconcilePosition cached kc kd bn).newPosition.last_update_block = bn ∧
  ((reconcilePosition cached kc kd bn).halted = true ↔
    10 < divergenceBps cached.collateral_amount kc ∨
    10 < divergenceBps cached.debt_amount kd) ∧
  (reconcilePosition cached kc kd bn).divergences =
    (if 0 < divergenceBps cached.collateral_amount kc then
      [⟨"collateral_amount", cached.collateral_amount, kc,
        divergenceBps cached.collateral_amount kc⟩] else []) ++
    (if 0 < divergenceBps cached.debt_amount kd then
      [⟨"debt_amount", cached.debt_amount, kd,
        divergenceBps cached.debt_amount kd⟩] else [])

/-- C2 amended.  For canonical values that are positive (the only case in
which the code computes a divergence), a reconciliation step satisfies
`reconcileSpec`: divergence in basis points is
`abs((cached - canonical) * 10000 // canonical)` — floor of the true
ratio above canonical and ceiling below it, per
`divergenceFloorCeilBound` — a `StateDivergence` record is emitted for
every nonzero divergence, the system halts exactly when a divergence
exceeds 10 bps, and the cached value is overwritten with the canonical
value in every case, including the halting one. -/
theorem C2_reconciliation_amended :
    (∀ (cached : RawPosition) (kc kd bn : Int), 0 < kc → 0 < kd →
      reconcileSpec cached kc kd bn) ∧
    (∀ c k : Int, 0 < k → divergenceFloorCeilBound c k) := by
  constructor
  · intro cached kc kd bn hkc hkd
    have hcond : ∀ b : Int, (0 < kc ∧ 0 < b) ↔ 0 < b :=
      fun b => ⟨fun h => h.2, fun h => ⟨hkc, h⟩⟩
    have hcond2 : ∀ b : Int, (0 < kd ∧ 0 < b) ↔ 0 < b :=
      fun b => ⟨fun h => h.2, fun h => ⟨hkd, h⟩⟩
    unfold reconcileSpec reconcilePosition
    refine ⟨rfl, rfl, rfl, ?_, ?_⟩
    · simp only [Bool.or_eq_true, decide_eq_true_eq]
      constructor
      · rintro (⟨-, -, h⟩ | ⟨-, -, h⟩)
        · exact Or.inl h
        · exact Or.inr h
      · rintro (h | h)
        · exact Or.inl ⟨hkc, by omega, h⟩
        · exact Or.inr ⟨hkd, by omega, h⟩
    · simp only [hcond, hcond2]
  · intro c k hk
    unfold divergenceFloorCeilBound divergenceBps
    rw [Int.fdiv_eq_ediv _ (le_of_lt hk)]
    have hmod := Int.ediv_add_emod ((c - k) * 10000) k
    have hr0 : 0 ≤ (c - k) * 10000 % k := Int.emod_nonneg _ (ne_of_gt hk)
    have hrk : (c - k) * 10000 % k < k := Int.emod_lt_of_pos _ hk
    constructor
    · intro hkc
      have ha : 0 ≤ (c - k) * 10000 :=
        mul_nonneg (by omega) (by norm_num)
      have hq : 0 ≤ (c - k) * 10000 / k :=
        Int.ediv_nonneg ha (le_of_lt hk)
      rw [Int.natAbs_of_nonneg hq]
      constructor <;> nlinarith [hmod, hr0, hrk]
    · intro hck
      have ha : (c - k) * 10000 ≤ 0 :=
        mul_nonpos_of_nonpos_of_nonneg (by omega) (by norm_num)
      have hq : (c - k) * 10000 / k ≤ 0 := by
        by_contra hq
        push_neg at hq
        have h1 : 0 < k * ((c - k) * 10000 / k) := mul_pos hk hq
        linarith [hmod, hr0]
      have hna : (((c - k) * 10000 / k).natAbs : Int) =
          -((c - k) * 10000 / k) := by
        rw [← Int.natAbs_neg]
        exact Int.natAbs_of_nonneg (by omega)
      rw [hna]
      constructor <;> nlinarith [hmod, hr0, hrk]

/-- C2 witness: the amended statement instantiated at the concrete
divergence scenario of the counterexample. -/
theorem C2_reconciliation_amended_witness :
    reconcileSpec samplePosition (10 ^ 18) (102 * 10 ^ 16) 500 ∧
    divergenceFloorCeilBound (10 ^ 18) (102 * 10 ^ 16) :=
  ⟨C2_reconciliation_amended.1 samplePosition (10 ^ 18) (102 * 10 ^ 16)
      500 (by decide) (by decide),
    C2_reconciliation_amended.2 (10 ^ 18) (102 * 10 ^ 16) (by decide)⟩

theorem calculateCosts_net_decomposition {cfg : PlannerConfig}
    {amb : Ambient} {inp : CostInputs} {cb : CostBreakdown}
    (h : calculateCosts cfg amb inp = some cb) :
    cb.net_profit_usd = cb.simulated_profit_usd -
      (cb.l2_gas_cost_usd + cb.l1_data_cost_usd + cb.bribe_usd +
        cb.flash_loan_cost_usd + cb.slippage_cost_usd) := by
  simp only [calculateCosts] at h
  split at h
  next => simp at h
  next =>
    injection h with h2
    rw [← h2]

/-- C3.  Every bundle `plan_execution` constructs satisfies the exact
cost decomposition `net = simulated - (l2 + l1 + bribe + flash +
slippage)` and has strictly positive net profit: the decomposition comes
from `_calculate_costs` and the positivity from the pydantic
`validate_profitable` validator of `types.Bundle` (reinforced by the
`min_profit_usd` rejection in `plan_execution`). -/
theorem C3_bundle_net_profit_invariant
    (cfg : PlannerConfig) (amb : Ambient) (inp : CostInputs)
    (minProfitUsd : ℚ) (simulationResult : Option (Int × Int))
    (b : Bundle)
    (h : planExecution cfg amb inp minProfitUsd simulationResult = some b) :
    b.net_profit_usd = b.simulated_profit_usd -
      (b.l2_gas_cost_usd + b.l1_data_cost_usd + b.bribe_usd +
        b.flash_loan_cost_usd + b.slippage_cost_usd) ∧
    0 < b.net_profit_usd := by
  rcases simulationResult with _ | ⟨pw, ge⟩
  · simp [planExecution] at h
  · simp only [planExecution] at h
    rcases hc : calculateCosts cfg amb
        { inp with simulatedProfitWei := pw, gasEstimate := ge } with _ | cb
    · rw [hc] at h
      simp at h
    · rw [hc] at h
      dsimp only at h
      by_cases hmin : cb.net_profit_usd < minProfitUsd
      · rw [if_pos hmin] at h
        simp at h
      · rw [if_neg hmin] at h
        simp only [mkBundle] at h
        by_cases hz : cb.net_profit_usd ≤ 0
        · rw [if_pos hz] at h
          simp at h
        · rw [if_neg hz] at h
          injection h with h2
          rw [← h2]
          exact ⟨calculateCosts_net_decomposition hc, lt_of_not_le hz⟩

/-- Concrete planner configuration for instantiations
(max bribe 40%, flash-loan premium 0.09%, slippage 1%). -/
def costSampleConfig : PlannerConfig := ⟨40, 9 / 100, 1⟩

/-- Concrete ambient chain state: base fee 1 gwei, L1 fee `10^14` wei,
bribe 15%, arbitrary clock and seed. -/
def costSampleAmbient : Ambient := ⟨10 ^ 9, some (10 ^ 14), 15, 1234, 42⟩

/-- Concrete cost inputs: priority fee 2 gwei, 1000 calldata characters,
ETH/USD 2000, debt price 1, one-token debt and collateral, collateral
price 2000. -/
def costSampleInputs : CostInputs :=
  ⟨2 * 10 ^ 9, 1000, 0, 0, 2000, 1, 10 ^ 18, 10 ^ 18, 2000⟩

/-- The bundle produced at the sample inputs with simulated profit
`100 * 10^18` wei and gas estimate 350000. -/
def costSampleBundle : Bundle :=
  ⟨100 * 10 ^ 18, 100, 350000, 21 / 10, 1 / 5, 15, 9 / 10000, 20,
    373009 / 10000, 626991 / 10000⟩

/-- C3 witness: `plan_execution` at the concrete sample inputs produces
`costSampleBundle`, and the invariant instantiates there. -/
theorem C3_bundle_net_profit_invariant_witness :
    planExecution costSampleConfig costSampleAmbient costSampleInputs 50
      (some (100 * 10 ^ 18, 350000)) = some costSampleBundle ∧
    costSampleBundle.net_profit_usd =
      costSampleBundle.simulated_profit_usd -
        (costSampleBundle.l2_gas_cost_usd +
          costSampleBundle.l1_data_cost_usd + costSampleBundle.bribe_usd +
          costSampleBundle.flash_loan_cost_usd +
          costSampleBundle.slippage_cost_usd) ∧
    0 < costSampleBundle.net_profit_usd := by
  have h : planExecution costSampleConfig costSampleAmbient
      costSampleInputs 50 (some (100 * 10 ^ 18, 350000)) =
      some costSampleBundle := by
    norm_num [planExecution, calculateCosts, calculateL1DataCost,
      mkBundle, costSampleConfig, costSampleAmbient, costSampleInputs,
      costSampleBundle]
  exact ⟨h,
    (C3_bundle_net_profit_invariant costSampleConfig costSampleAmbient
      costSampleInputs 50 (some (100 * 10 ^ 18, 350000))
      costSampleBundle h).1,
    (C3_bundle_net_profit_invariant costSampleConfig costSampleAmbient
      costSampleInputs 50 (some (100 * 10 ^ 18, 350000))
      costSampleBundle h).2⟩

/-- C4.  For a position that passes the health-factor filter (prices
available, health factor below 1) and the oracle sanity filter, with a
cached record that parses to a valid `Position` with `blocks_unhealthy`
counter `q.blocks_unhealthy`: `check_position` first applies
`update_position_health(healthy=False)`, leaving the cached counter at
`q.blocks_unhealthy + 1`, and rejects at the confirmation stage exactly
when that resulting counter is below `confirmation_blocks`; in
particular a counter equal to `confirmation_blocks - 1` before the
update is not rejected by this stage, and a resulting counter equal to
`confirmation_blocks` passes it. -/
theorem C4_confirmation_blocks
    (env : DetectorEnv) (c : Cache) (prev : PrevPrices) (p : Position)
    (hf cp dp : ℚ) (raw : RawPosition) (q : Position) (prev2 : PrevPrices)
    (h1 : calculateHealthFactor env p = some (hf, cp, dp))
    (h2 : hf < 1)
    (h3 : verifyOracleSanity env prev p.collateral_asset cp
      p.debt_asset dp = (true, prev2))
    (h4 : c.lookup (p.protocol, p.user) = some raw)
    (h5 : mkPosition raw = some q) :
    ∃ q2 : Position,
      getPosition (checkPosition env c prev p).cache p.protocol p.user =
        some q2 ∧
      q2.blocks_unhealthy = q.blocks_unhealthy + 1 ∧
      ((checkPosition env c prev p).outcome = CheckOutcome.notConfirmed ↔
        q2.blocks_unhealthy < env.confirmationBlocks) := by
  obtain ⟨hvraw, hqraw⟩ := mkPosition_some_inv h5
  have hnotle : ¬ (1 : ℚ) ≤ hf := not_le.mpr h2
  have hup : updatePositionHealth c p.protocol p.user false
      env.currentBlock = (true, c.insert (p.protocol, p.user)
        (Position.toRaw { q with
          blocks_unhealthy := q.blocks_unhealthy + 1
          last_update_block := env.currentBlock })) := by
    unfold updatePositionHealth getPosition
    rw [h4]
    simp only [h5]
    rfl
  have hvalid : validRaw (Position.toRaw { q with
      blocks_unhealthy := q.blocks_unhealthy + 1
      last_update_block := env.currentBlock }) = true := by
    rw [validRaw_toRaw_health_update, hqraw]
    exact hvraw
  have hget2 : getPosition (c.insert (p.protocol, p.user)
      (Position.toRaw { q with
        blocks_unhealthy := q.blocks_unhealthy + 1
        last_update_block := env.currentBlock })) p.protocol p.user =
      some { q with
        blocks_unhealthy := q.blocks_unhealthy + 1
        last_update_block := env.currentBlock } := by
    unfold getPosition
    rw [lookup_insert_self]
    exact mkPosition_toRaw_self hvalid
  refine ⟨{ q with
    blocks_unhealthy := q.blocks_unhealthy + 1
    last_update_block := env.currentBlock }, ?_, rfl, ?_⟩
  · simp only [checkPosition, h1, hnotle, h3, hup, hget2, if_false,
      if_true]
    split_ifs <;> exact hget2
  · simp only [checkPosition, h1, hnotle, h3, hup, hget2, if_false,
      if_true]
    split_ifs with hA hB hC
    · simpa using hA
    · simp [hA]
    · simp [hA]
    · simp [hA]

/-- A second well-formed sample address (debt asset). -/
def sampleDebtAddress : String := "0xbbbbbbbbbbbbbbbbbbbbbbbbbbbbbbbbbbbbbbbb"

/-- Concrete detector environment: collateral priced $2000, debt priced
$1, no Pyth feeds, default thresholds, confirmation blocks 2,
liquidation bonus 5% for `moonwell`. -/
def detectorSampleEnv : DetectorEnv :=
  { chainlinkPrice := fun a =>
      if a = sampleAddress then some 2000
      else if a = sampleDebtAddress then some 1
      else none
    pythConfigured := fun _ => false
    maxDivergencePercent := 5
    maxMovementPercent := 30
    confirmationBlocks := 2
    minProfitUsd := 50
    flashLoanPremiumPercent := 9 / 100
    maxSlippagePercent := 1
    protocolBonus := fun pr => if pr = "moonwell" then some (5 / 100)
      else none
    currentBlock := 100 }

/-- Concrete unhealthy position: collateral `10^18` at $2000,
debt `2 * 10^21` at $1, threshold 0.8 — health factor 0.8 — one block
unhealthy so far. -/
def detectorSamplePos : Position :=
  ⟨"moonwell", sampleAddress, sampleAddress, 10 ^ 18, sampleDebtAddress,
    2 * 10 ^ 21, 8 / 10, 1, 1⟩

/-- The cache holding the sample position's serialized record. -/
def detectorSampleCache : Cache :=
  [(("moonwell", sampleAddress), detectorSamplePos.toRaw)]

/-- C4 witness: the confirmation-block behaviour instantiated at the
concrete unhealthy position (counter 1, confirmation blocks 2: the
updated counter is 2, which is not below the threshold, so the stage
passes). -/
theorem C4_confirmation_blocks_witness :
    ∃ q2 : Position,
      getPosition (checkPosition detectorSampleEnv detectorSampleCache []
        detectorSamplePos).cache detectorSamplePos.protocol
        detectorSamplePos.user = some q2 ∧
      q2.blocks_unhealthy = detectorSamplePos.blocks_unhealthy + 1 ∧
      ((checkPosition detectorSampleEnv detectorSampleCache []
        detectorSamplePos).outcome = CheckOutcome.notConfirmed ↔
        q2.blocks_unhealthy < detectorSampleEnv.confirmationBlocks) := by
  have hba : (sampleDebtAddress = sampleAddress) = False := by
    simp [sampleAddress, sampleDebtAddress]
  have hab : (sampleAddress = sampleDebtAddress) = False := by
    simp [sampleAddress, sampleDebtAddress]
  have h1 : calculateHealthFactor detectorSampleEnv detectorSamplePos =
      some (4 / 5, 2000, 1) := by
    norm_num [calculateHealthFactor, detectorSampleEnv,
      detectorSamplePos, hba]
  have h3 : verifyOracleSanity detectorSampleEnv []
      detectorSamplePos.collateral_asset (4 / 5, 2000, 1).2.1
      detectorSamplePos.debt_asset (4 / 5, 2000, 1).2.2 =
      (true, [(sampleAddress, 2000), (sampleDebtAddress, 1)]) := by
    simp [verifyOracleSanity, divergenceCheckFails, movementCheckFails,
      PrevPrices.lookup, PrevPrices.insert, getPythPrice,
      detectorSampleEnv, detectorSamplePos, hba, hab]
  exact C4_confirmation_blocks detectorSampleEnv detectorSampleCache []
    detectorSamplePos (4 / 5) 2000 1 detectorSamplePos.toRaw
    detectorSamplePos [(sampleAddress, 2000), (sampleDebtAddress, 1)]
    h1 (by norm_num) h3 rfl rfl

/-- C8.  When `check_position` drops a position because an oracle price
is unavailable (`calculate_health_factor` returns `None`) or because the
oracle sanity check fails, the position cache — and with it every
`blocks_unhealthy` counter — is left untouched: `update_position_health`
is not called on either path. -/
theorem C8_drop_paths_leave_cache_untouched
    (env : DetectorEnv) (c : Cache) (prev : PrevPrices) (p : Position)
    (h : calculateHealthFactor env p = none ∨
      ∃ hf cp dp, calculateHealthFactor env p = some (hf, cp, dp) ∧
        hf < 1 ∧
        (verifyOracleSanity env prev p.collateral_asset cp
          p.debt_asset dp).1 = false) :
    (checkPosition env c prev p).cache = c := by
  rcases h with h | ⟨hf, cp, dp, h1, h2, h3⟩
  · simp [checkPosition, h]
  · have hnotle : ¬ (1 : ℚ) ≤ hf := not_le.mpr h2
    rcases hveq : verifyOracleSanity env prev p.collateral_asset cp
      p.debt_asset dp with ⟨b, pp⟩
    rw [hveq] at h3
    simp only at h3
    subst h3
    simp only [checkPosition, h1, hnotle, if_false, hveq]

/-- A third sample address with no configured oracle. -/
def sampleUnpricedAddress : String :=
  "0xcccccccccccccccccccccccccccccccccccccccc"

/-- A position whose collateral asset has no oracle price. -/
def noPricePos : Position :=
  ⟨"moonwell", sampleAddress, sampleUnpricedAddress, 10 ^ 18,
    sampleDebtAddress, 10 ^ 18, 8 / 10, 1, 3⟩

/-- C8 witness: dropping the unpriced position leaves the sample cache
exactly as it was. -/
theorem C8_drop_paths_leave_cache_untouched_witness :
    (checkPosition detectorSampleEnv detectorSampleCache []
      noPricePos).cache = detectorSampleCache := by
  refine C8_drop_paths_leave_cache_untouched detectorSampleEnv
    detectorSampleCache [] noPricePos (Or.inl ?_)
  have hca : (sampleUnpricedAddress = sampleAddress) = False := by
    simp [sampleAddress, sampleUnpricedAddress]
  have hcb : (sampleUnpricedAddress = sampleDebtAddress) = False := by
    simp [sampleDebtAddress, sampleUnpricedAddress]
  simp [calculateHealthFactor, detectorSampleEnv, noPricePos, hca, hcb]

/-- Cost inputs with a live gas estimate and simulated profit, used to
exhibit base-fee dependence. -/
def c5SampleInputs : CostInputs :=
  ⟨2 * 10 ^ 9, 1000, 350000, 100 * 10 ^ 18, 2000, 1, 10 ^ 18, 10 ^ 18,
    2000⟩

/-- C5 counterexample.  Two runs of `_calculate_costs` with identical
transaction, gas estimate, simulated profit, ETH/USD price and
opportunity, but observed when the chain's latest base fee differs
(1 gwei vs 2 gwei), return different cost breakdowns: the computation
reads external chain state beyond the claim's listed inputs. -/
theorem C5_base_fee_dependence_counterexample :
    calculateCosts costSampleConfig costSampleAmbient c5SampleInputs ≠
      calculateCosts costSampleConfig
        { costSampleAmbient with baseFeeWei := 2 * 10 ^ 9 }
        c5SampleInputs := by
  norm_num [calculateCosts, calculateL1DataCost, costSampleConfig,
    costSampleAmbient, c5SampleInputs]

/-- C5 amended.  The cost computation is a pure function of the claim's
listed inputs together with the latest base fee, the L1 fee oracle
answer and the planner's current `bribe_percent`: two ambient states
agreeing on those three — whatever their wall clock or randomness seed —
yield identical cost breakdowns, so there is no hidden clock or
randomness, but there is dependence on that external chain state. -/
theorem C5_cost_determinism_amended
    (cfg : PlannerConfig) (inp : CostInputs) (a1 a2 : Ambient)
    (hb : a1.baseFeeWei = a2.baseFeeWei)
    (hl : a1.l1FeeWei = a2.l1FeeWei)
    (hp : a1.bribePercent = a2.bribePercent) :
    calculateCosts cfg a1 inp = calculateCosts cfg a2 inp := by
  unfold calculateCosts calculateL1DataCost
  rw [hb, hl, hp]

/-- C5 witness: at the sample inputs, changing only the clock and the
randomness seed leaves the cost breakdown unchanged. -/
theorem C5_cost_determinism_amended_witness :
    calculateCosts costSampleConfig costSampleAmbient c5SampleInputs =
      calculateCosts costSampleConfig
        { costSampleAmbient with clock := 9999, randomSeed := 7 }
        c5SampleInputs :=
  C5_cost_determinism_amended costSampleConfig c5SampleInputs
    costSampleAmbient
    { costSampleAmbient with clock := 9999, randomSeed := 7 }
    rfl rfl rfl

/-- C9 counterexample.  A repay event covering the whole debt
(`amount = debt_amount = 2 * 10^21`) does not remove the cached
position: the entry is still present, with `debt_amount` clamped to
zero. -/
theorem C9_full_repay_keeps_entry_counterexample :
    (updatePositionDebt detectorSampleCache "moonwell" sampleAddress
        (2 * 10 ^ 21) 7 false none).lookup ("moonwell", sampleAddress) ≠
      none ∧
    (updatePositionDebt detectorSampleCache "moonwell" sampleAddress
        (2 * 10 ^ 21) 7 false none).lookup ("moonwell", sampleAddress) =
      some { detectorSamplePos.toRaw with
        debt_amount := 0
        last_update_block := 7 } := by
  refine ⟨?_, rfl⟩
  intro hnone
  simp [updatePositionDebt, detectorSampleCache, Cache.lookup,
    Cache.insert] at hnone

/-- C9 amended.  A cached position is removed when a liquidation event
from a configured protocol targets it; a repay event that brings the
debt to zero does **not** remove it — the entry stays in the cache with
`debt_amount` clamped to 0 and the new block stamped, and only becomes
invisible through `get_position`, whose validation rejects the zero
debt and returns `None`. -/
theorem C9_position_removal_amended :
    (∀ (c : Cache) (proto user : String),
      (handleLiquidationEvent c true proto user).lookup (proto, user) =
        none) ∧
    (∀ (c : Cache) (proto user : String) (raw : RawPosition)
        (amount bn : Int) (th : Option ℚ),
      c.lookup (proto, user) = some raw → raw.debt_amount ≤ amount →
      (updatePositionDebt c proto user amount bn false th).lookup
          (proto, user) =
        some { raw with debt_amount := 0, last_update_block := bn } ∧
      getPosition (updatePositionDebt c proto user amount bn false th)
        proto user = none) := by
  constructor
  · intro c proto user
    unfold handleLiquidationEvent
    rw [if_pos rfl]
    exact lookup_remove_self c (proto, user)
  · intro c proto user raw amount bn th hl hle
    have hzero : max 0 (raw.debt_amount - amount) = 0 :=
      max_eq_left (by omega)
    have hupd : updatePositionDebt c proto user amount bn false th =
        c.insert (proto, user)
          { raw with debt_amount := 0, last_update_block := bn } := by
      unfold updatePositionDebt
      rw [hl]
      simp only [Bool.false_eq_true, if_false, hzero]
    rw [hupd]
    refine ⟨lookup_insert_self c (proto, user) _, ?_⟩
    unfold getPosition
    rw [lookup_insert_self]
    simp [mkPosition, validRaw]

/-- C9 witness: the amended statement instantiated at the sample cache —
the liquidation path removes the key, and a full repay leaves a
zero-debt entry that `get_position` reports as `None`. -/
theorem C9_position_removal_amended_witness :
    (handleLiquidationEvent detectorSampleCache true "moonwell"
      sampleAddress).lookup ("moonwell", sampleAddress) = none ∧
    ((updatePositionDebt detectorSampleCache "moonwell" sampleAddress
        (2 * 10 ^ 21) 7 false none).lookup ("moonwell", sampleAddress) =
      some { detectorSamplePos.toRaw with
        debt_amount := 0
        last_update_block := 7 } ∧
    getPosition (updatePositionDebt detectorSampleCache "moonwell"
      sampleAddress (2 * 10 ^ 21) 7 false none) "moonwell"
      sampleAddress = none) :=
  ⟨C9_position_removal_amended.1 detectorSampleCache "moonwell"
      sampleAddress,
    C9_position_removal_amended.2 detectorSampleCache "moonwell"
      sampleAddress detectorSamplePos.toRaw (2 * 10 ^ 21) 7 none rfl
      (by decide)⟩

/-- C10.  `get_position` is total: for every cache contents and key it
returns `None` or a `Position`, and any `Position` it returns has
strictly positive collateral and debt amounts (the pydantic validators);
in particular a cached entry whose amounts were clamped to zero (or are
otherwise non-positive) is reported as `None`, not as a `Position`. -/
theorem C10_get_position_safe :
    (∀ (c : Cache) (proto user : String),
      getPosition c proto user = none ∨
      ∃ p : Position, getPosition c proto user = some p ∧
        0 < p.collateral_amount ∧ 0 < p.debt_amount) ∧
    (∀ (c : Cache) (proto user : String) (raw : RawPosition),
      c.lookup (proto, user) = some raw →
      raw.collateral_amount ≤ 0 ∨ raw.debt_amount ≤ 0 →
      getPosition c proto user = none) := by
  constructor
  · intro c proto user
    cases hl : c.lookup (proto, user) with
    | none =>
      refine Or.inl ?_
      unfold getPosition
      rw [hl]
    | some raw =>
      have hg : getPosition c proto user = mkPosition raw := by
        unfold getPosition
        rw [hl]
      cases hm : mkPosition raw with
      | none => exact Or.inl (hg.trans hm)
      | some p =>
        obtain ⟨hv, hpr⟩ := mkPosition_some_inv hm
        subst hpr
        simp only [validRaw, Position.toRaw, Bool.and_eq_true,
          decide_eq_true_eq] at hv
        exact Or.inr ⟨p, hg.trans hm, hv.1.2, hv.2⟩
  · intro c proto user raw hl hneg
    unfold getPosition
    rw [hl]
    simp only [mkPosition]
    rw [if_neg]
    intro hv
    simp only [validRaw, Bool.and_eq_true, decide_eq_true_eq] at hv
    rcases hneg with h | h
    · omega
    · omega

/-- C10 witness: a cache entry whose debt was clamped to zero is
returned as `None` by `get_position`. -/
theorem C10_get_position_safe_witness :
    getPosition [(("moonwell", sampleAddress),
      { detectorSamplePos.toRaw with debt_amount := 0 })] "moonwell"
      sampleAddress = none :=
  C10_get_position_safe.2 [(("moonwell", sampleAddress),
    { detectorSamplePos.toRaw with debt_amount := 0 })] "moonwell"
    sampleAddress { detectorSamplePos.toRaw with debt_amount := 0 } rfl
    (Or.inr (by decide))

/-- C7.  For a candidate that passes the other three limits (minimum
profit, single-execution cap, consecutive-failure cap),
`validate_execution` — after applying the midnight-UTC daily reset —
accepts exactly when `daily_volume_usd + net_profit_usd` does not
strictly exceed `max_daily_volume_usd`: a sum exactly equal to the
limit is accepted, a sum strictly over is rejected. -/
theorem C7_daily_volume_boundary
    (limits : SafetyLimits) (now nextMidnight : Int) (s : SafetyState)
    (netProfitUsd : ℚ)
    (hmin : limits.minProfitUsd ≤ netProfitUsd)
    (hmax : netProfitUsd ≤ limits.maxSingleExecutionUsd)
    (hfail : s.consecutiveFailures < limits.maxConsecutiveFailures) :
    ((validateExecution limits now nextMidnight s netProfitUsd).1 =
        none ↔
      (resetDailyVolumeIfNeeded now nextMidnight s).dailyVolumeUsd +
        netProfitUsd ≤ limits.maxDailyVolumeUsd) := by
  have hfail2 : ¬ (limits.maxConsecutiveFailures ≤
      (resetDailyVolumeIfNeeded now nextMidnight s).consecutiveFailures)
      := by
    unfold resetDailyVolumeIfNeeded
    split_ifs <;> simpa using hfail
  simp only [validateExecution]
  rw [if_neg (not_lt.mpr hmin), if_neg (not_lt.mpr hmax)]
  by_cases hd : limits.maxDailyVolumeUsd <
      (resetDailyVolumeIfNeeded now nextMidnight s).dailyVolumeUsd +
        netProfitUsd
  · rw [if_pos hd]
    exact iff_of_false (by simp) (not_le.mpr hd)
  · rw [if_neg hd, if_neg hfail2]
    exact iff_of_true rfl (not_lt.mp hd)

/-- Sample safety limits: minimum profit $50, single-execution cap $500,
daily cap $2500, failure cap 3. -/
def sampleLimits : SafetyLimits := ⟨50, 500, 2500, 3⟩

/-- Sample safety counters: $2400 of daily volume, next reset at
instant 1000, no consecutive failures. -/
def sampleSafetyState : SafetyState := ⟨2400, 1000, 0⟩

/-- C7 witness: before the reset instant, a $100 candidate bringing the
daily volume to exactly the $2500 cap is accepted, while a $200
candidate strictly over the cap is rejected. -/
theorem C7_daily_volume_boundary_witness :
    (validateExecution sampleLimits 500 2000 sampleSafetyState
      100).1 = none ∧
    (validateExecution sampleLimits 500 2000 sampleSafetyState
      200).1 ≠ none := by
  constructor
  · refine (C7_daily_volume_boundary sampleLimits 500 2000
      sampleSafetyState 100 (by norm_num [sampleLimits])
      (by norm_num [sampleLimits])
      (by norm_num [sampleLimits, sampleSafetyState])).mpr ?_
    norm_num [resetDailyVolumeIfNeeded, sampleLimits, sampleSafetyState]
  · intro habs
    have h := (C7_daily_volume_boundary sampleLimits 500 2000
      sampleSafetyState 200 (by norm_num [sampleLimits])
      (by norm_num [sampleLimits])
      (by norm_num [sampleLimits, sampleSafetyState])).mp habs
    rw [show resetDailyVolumeIfNeeded 500 2000 sampleSafetyState =
      sampleSafetyState by norm_num [resetDailyVolumeIfNeeded,
        sampleSafetyState]] at h
    norm_num [sampleLimits, sampleSafetyState] at h

/-- The bribe-ladder configuration at its `config.py` defaults. -/
def bribeSampleConfig : BribeConfig := ⟨15, 5, 2, 40⟩

/-- A 100-submission window with 40 inclusions (40% inclusion rate). -/
def bribeWindowLow : List Bool :=
  List.replicate 40 true ++ List.replicate 60 false

theorem bribeWindowLow_length : bribeWindowLow.length = 100 := by decide

theorem bribeWindowLow_countP :
    bribeWindowLow.countP (fun x => x) = 40 := by decide

/-- C6 counterexample.  At the default configuration, a 100-sample
window with 40% inclusion raises the bribe from 15% to 20% on the first
application and to 25% on the second: applying `update_bribe_model`
twice to the same window does not yield the same percentage as once. -/
theorem C6_bribe_not_idempotent_counterexample :
    updateBribeModel bribeSampleConfig bribeWindowLow
        (updateBribeModel bribeSampleConfig bribeWindowLow 15) ≠
      updateBribeModel bribeSampleConfig bribeWindowLow 15 := by
  have h15 : updateBribeModel bribeSampleConfig bribeWindowLow 15 = 20 := by
    unfold updateBribeModel
    rw [bribeWindowLow_length, bribeWindowLow_countP]
    norm_num [bribeSampleConfig, min_def]
  have h20 : updateBribeModel bribeSampleConfig bribeWindowLow 20 = 25 := by
    unfold updateBribeModel
    rw [bribeWindowLow_length, bribeWindowLow_countP]
    norm_num [bribeSampleConfig, min_def]
  rw [h15, h20]
  norm_num

/-- C6 amended.  For a 100-sample window and positive step sizes,
applying `update_bribe_model` twice yields the same percentage as once
**exactly when** the window's inclusion rate lies in the no-change band
`[60%, 90%]`, or the rate is below 60% and the single application
already saturates at `max_bribe_percent`, or the rate is above 90% and
the single application already saturates at `baseline_bribe_percent`;
outside those cases the second application moves the percentage by
another step. -/
theorem C6_bribe_update_amended
    (cfg : BribeConfig) (w : List Bool) (b : ℚ)
    (hlen : w.length = 100)
    (hinc : 0 < cfg.bribeIncreasePercent)
    (hdec : 0 < cfg.bribeDecreasePercent) :
    (updateBribeModel cfg w (updateBribeModel cfg w b) =
        updateBribeModel cfg w b ↔
      (60 / 100 ≤ (w.countP (fun x => x) : ℚ) / (w.length : ℚ) ∧
        (w.countP (fun x => x) : ℚ) / (w.length : ℚ) ≤ 90 / 100) ∨
      ((w.countP (fun x => x) : ℚ) / (w.length : ℚ) < 60 / 100 ∧
        updateBribeModel cfg w b = cfg.maxBribePercent) ∨
      (90 / 100 < (w.countP (fun x => x) : ℚ) / (w.length : ℚ) ∧
        updateBribeModel cfg w b = cfg.baselineBribePercent)) := by
  have hnlt : ¬ (w.length < 100) := by omega
  have happ : ∀ x : ℚ, updateBribeModel cfg w x =
      if (w.countP (fun x => x) : ℚ) / (w.length : ℚ) < 60 / 100 then
        min (x + cfg.bribeIncreasePercent) cfg.maxBribePercent
      else if 90 / 100 < (w.countP (fun x => x) : ℚ) / (w.length : ℚ)
          then
        max (x - cfg.bribeDecreasePercent) cfg.baselineBribePercent
      else x := by
    intro x
    simp only [updateBribeModel]
    rw [if_neg hnlt]
  by_cases hlow : (w.countP (fun x => x) : ℚ) / (w.length : ℚ) <
      60 / 100
  · have h2 : updateBribeModel cfg w (updateBribeModel cfg w b) =
        min (updateBribeModel cfg w b + cfg.bribeIncreasePercent)
          cfg.maxBribePercent := by
      rw [happ (updateBribeModel cfg w b), if_pos hlow]
    rw [h2]
    constructor
    · intro heq
      refine Or.inr (Or.inl ⟨hlow, ?_⟩)
      rcases le_total
          (updateBribeModel cfg w b + cfg.bribeIncreasePercent)
          cfg.maxBribePercent with hca | hca
      · rw [min_eq_left hca] at heq
        linarith
      · rw [min_eq_right hca] at heq
        exact heq.symm
    · rintro (⟨hge, -⟩ | ⟨-, hmaxeq⟩ | ⟨hhigh2, -⟩)
      · exact absurd hlow (not_lt.mpr hge)
      · rw [hmaxeq]
        exact min_eq_right (by linarith)
      · exact absurd hhigh2 (by linarith)
  · by_cases hhigh : 90 / 100 <
        (w.countP (fun x => x) : ℚ) / (w.length : ℚ)
    · have h2 : updateBribeModel cfg w (updateBribeModel cfg w b) =
          max (updateBribeModel cfg w b - cfg.bribeDecreasePercent)
            cfg.baselineBribePercent := by
        rw [happ (updateBribeModel cfg w b), if_neg hlow, if_pos hhigh]
      rw [h2]
      constructor
      · intro heq
        refine Or.inr (Or.inr ⟨hhigh, ?_⟩)
        rcases le_total
            (updateBribeModel cfg w b - cfg.bribeDecreasePercent)
            cfg.baselineBribePercent with hca | hca
        · rw [max_eq_right hca] at heq
          exact heq.symm
        · rw [max_eq_left hca] at heq
          linarith
      · rintro (⟨-, hle⟩ | ⟨hlow2, -⟩ | ⟨-, hbase⟩)
        · exact absurd hhigh (not_lt.mpr hle)
        · exact absurd hlow2 hlow
        · rw [hbase]
          exact max_eq_right (by linarith)
    · have h1 : updateBribeModel cfg w b = b := by
        rw [happ b, if_neg hlow, if_neg hhigh]
      have h2 : updateBribeModel cfg w (updateBribeModel cfg w b) =
          updateBribeModel cfg w b := by
        rw [happ (updateBribeModel cfg w b), if_neg hlow, if_neg hhigh]
      exact iff_of_true h2
        (Or.inl ⟨not_lt.mp hlow, not_lt.mp hhigh⟩)

/-- C6 witness: on the 40%-inclusion window starting from a bribe of
35%, the single application saturates at the 40% cap, so a second
application leaves it unchanged — the saturation case of the amended
claim. -/
theorem C6_bribe_update_amended_witness :
    updateBribeModel bribeSampleConfig bribeWindowLow
        (updateBribeModel bribeSampleConfig bribeWindowLow 35) =
      updateBribeModel bribeSampleConfig bribeWindowLow 35 := by
  refine (C6_bribe_update_amended bribeSampleConfig bribeWindowLow 35
    (by decide) (by norm_num [bribeSampleConfig])
    (by norm_num [bribeSampleConfig])).mpr ?_
  refine Or.inr (Or.inl ⟨?_, ?_⟩)
  · rw [bribeWindowLow_countP, bribeWindowLow_length]
    norm_num
  · have h35 : updateBribeModel bribeSampleConfig bribeWindowLow 35 =
        40 := by
      unfold updateBribeModel
      rw [bribeWindowLow_length, bribeWindowLow_countP]
      norm_num [bribeSampleConfig, min_def]
    rw [h35]
    norm_num [bribeSampleConfig]

end Chimera
